import Mathlib

/-!
Verification of the conversation/token-budget core of the repository.

The definitions below are a shallow embedding of the Python sources:
  app/core/models.py         (model registry)
  app/utils/token_counter.py (TokenCounter, ContextWindowManager)
  app/services/llm_service.py (filter / trim / clean message pipeline)
  app/utils/summary_utils.py (SummarySlicingEngine)
  app/services/summarization_service.py (SummarizationService)
  app/services/thread_service.py (ThreadService threshold logic)

Modelling conventions:
  * Python ints are embedded as Nat where the source value is provably
    non-negative and as Int where subtraction may go negative.
  * The word-based token estimate multiplies the word count by the
    per-provider constant 1.3; the product is represented exactly as
    (wordCount * 13) / 10 in Nat arithmetic, which is the floored value the
    source's int(...) produces.
  * Python dicts with string keys are embedded as association lists, or as
    structures with Option-valued fields when the key set is fixed.
  * A Python function that can raise is embedded with Option/Except.
-/

/-- Provider families from app/core/models.py (ModelProvider enum). -/
inductive ModelProvider where
  | google
  | openai
  | mistralai
  | anthropic
  | upstage
deriving DecidableEq, Repr

/-- Summary size categories from app/core/models.py (SummarySize enum). -/
inductive SummarySize where
  | small
  | medium
  | large
deriving DecidableEq, Repr

/-- Model configuration from app/core/models.py (ModelConfig dataclass).
Fields never read by the verified operations (temperature, cost figures,
vision/function-calling flags, description) are elided. -/
structure ModelConfig where
  name : String
  provider : ModelProvider
  max_tokens : Nat
  context_window : Nat
  preferred_summary_size : SummarySize
deriving DecidableEq, Repr

/-- The MODEL_CONFIGS registry from app/core/models.py, keyed by the
string value of the ModelName enum member. -/
def MODEL_CONFIGS : List (String × ModelConfig) :=
  [ ("openai/gpt-4",
      ⟨"openai/gpt-4", ModelProvider.openai, 8192, 8192, SummarySize.large⟩),
    ("upstage/solar-pro-3:free",
      ⟨"upstage/solar-pro-3:free", ModelProvider.upstage, 8192, 8192, SummarySize.large⟩),
    ("openai/gpt-4-turbo-preview",
      ⟨"openai/gpt-4-turbo-preview", ModelProvider.openai, 4096, 128000, SummarySize.large⟩),
    ("openai/gpt-3.5-turbo",
      ⟨"openai/gpt-3.5-turbo", ModelProvider.openai, 4096, 4096, SummarySize.medium⟩),
    ("mistralai/mistral-7b-instruct",
      ⟨"mistralai/mistral-7b-instruct", ModelProvider.mistralai, 1500, 32000, SummarySize.medium⟩),
    ("anthropic/claude-3-haiku",
      ⟨"anthropic/claude-3-haiku", ModelProvider.anthropic, 1024, 200000, SummarySize.small⟩) ]

/-- get_model_config from app/core/models.py: a string identifier resolves to
its configuration, unknown identifiers raise ValueError (modelled as none). -/
def get_model_config (model_name : String) : Option ModelConfig :=
  MODEL_CONFIGS.lookup model_name

/-- TokenCounter.TOKENS_PER_WORD from app/utils/token_counter.py, scaled by
10 to stay in exact integer arithmetic.  Every listed provider maps to 1.3,
and the dict lookup's default for an unlisted provider (upstage) is also
1.3, so every provider yields 13/10 tokens per word. -/
def tokensPerWord10 (provider : ModelProvider) : Nat :=
  match provider with
  | ModelProvider.google => 13
  | ModelProvider.openai => 13
  | ModelProvider.mistralai => 13
  | ModelProvider.anthropic => 13
  | ModelProvider.upstage => 13

/-- Number of maximal non-whitespace runs in a character list, with a flag
recording whether the previous character was part of a word.  This is the
length of Python's text.split() result. -/
def wordCountAux : List Char → Bool → Nat
  | [], _ => 0
  | c :: rest, inWord =>
    if c.isWhitespace then wordCountAux rest false
    else (if inWord then 0 else 1) + wordCountAux rest true

/-- len(text.split()) for Python's whitespace split. -/
def wordCount (text : String) : Nat :=
  wordCountAux text.toList false

/-- TokenCounter.count_tokens specialised to a known configuration:
word count times the per-provider constant (floored), at least 1 for
non-empty text, 0 for empty text. -/
def countTokensCfg (text : String) (config : ModelConfig) : Nat :=
  if text = "" then 0
  else max ((wordCount text * tokensPerWord10 config.provider) / 10) 1

/-- TokenCounter.count_tokens from app/utils/token_counter.py.  The empty
check precedes the registry lookup, so empty text returns 0 even for an
unknown model; a non-empty text with an unknown model raises (none). -/
def count_tokens (text : String) (model_name : String) : Option Nat :=
  if text = "" then some 0
  else (get_model_config model_name).map (fun config => countTokensCfg text config)

/-- One entry of ContextWindowManager.token_history
(app/utils/token_counter.py, add_tokens). -/
structure HistEntry where
  source : String
  tokens : Nat
  cumulative : Nat
deriving DecidableEq, Repr

/-- ContextWindowManager state from app/utils/token_counter.py.  The
config field caches get_model_config(model_name) exactly as __init__ does. -/
structure ContextWindowManager where
  model_name : String
  config : ModelConfig
  buffer : Nat
  used_tokens : Nat
  token_history : List HistEntry
deriving DecidableEq, Repr

/-- ContextWindowManager.__init__: resolves the model configuration (raising
for unknown models, modelled as none) and starts with zero usage and an
empty history. -/
def mkContextWindowManager (model_name : String) (buffer : Nat) :
    Option ContextWindowManager :=
  (get_model_config model_name).map
    (fun config => ⟨model_name, config, buffer, 0, []⟩)

/-- ContextWindowManager.add_tokens: estimates the text, accumulates
used_tokens and appends a history entry carrying the running total.  The
source estimates via TokenCounter.count_tokens(text, self.model_name), whose
registry lookup yields self.config for any manager built by __init__. -/
def ContextWindowManager.add_tokens (s : ContextWindowManager)
    (text : String) (source : String) : ContextWindowManager × Nat :=
  let tokens := countTokensCfg text s.config
  let used := s.used_tokens + tokens
  (⟨s.model_name, s.config, s.buffer, used,
    s.token_history ++ [⟨source, tokens, used⟩]⟩, tokens)

/-- ContextWindowManager.reset: zeroes the counter and clears the history. -/
def ContextWindowManager.reset (s : ContextWindowManager) : ContextWindowManager :=
  ⟨s.model_name, s.config, s.buffer, 0, []⟩

/-- ContextWindowManager.get_available_tokens: remaining = context_window -
used_tokens, then max(0, remaining - buffer). -/
def ContextWindowManager.get_available_tokens (s : ContextWindowManager) : Int :=
  let remaining : Int := (s.config.context_window : Int) - (s.used_tokens : Int)
  max 0 (remaining - (s.buffer : Int))

/-- ContextWindowManager.can_fit: the estimate of the text fits the
available budget. -/
def ContextWindowManager.can_fit (s : ContextWindowManager) (text : String) : Bool :=
  let tokens_needed := countTokensCfg text s.config
  decide ((tokens_needed : Int) ≤ s.get_available_tokens)

/-- A sequence of add_tokens calls (text, source label), applied in order. -/
def ContextWindowManager.applyAdds (s : ContextWindowManager)
    (adds : List (String × String)) : ContextWindowManager :=
  adds.foldl (fun s a => (s.add_tokens a.1 a.2).1) s

/-- An operation on a ContextWindowManager: an add_tokens call or a reset. -/
inductive CWMOp where
  | add (text : String) (source : String)
  | reset
deriving DecidableEq, Repr

/-- Apply one operation to a ContextWindowManager. -/
def ContextWindowManager.applyOp (s : ContextWindowManager) : CWMOp → ContextWindowManager
  | CWMOp.add text source => (s.add_tokens text source).1
  | CWMOp.reset => s.reset

/-- Apply a sequence of add_tokens/reset operations in order. -/
def ContextWindowManager.applyOps (s : ContextWindowManager) (ops : List CWMOp) :
    ContextWindowManager :=
  ops.foldl (fun s op => s.applyOp op) s

/-- The running-total discipline of a token history: starting from
accumulator acc, every entry's cumulative field equals the accumulator
plus its own delta, threading the sum through the list. -/
def cumulativeOk : Nat → List HistEntry → Prop
  | _, [] => True
  | acc, e :: rest => e.cumulative = acc + e.tokens ∧ cumulativeOk (acc + e.tokens) rest

/-- A chat message as handled by LLMService (a dict with role and content;
the filter and trim stages read only the content). -/
structure Message where
  role : String
  content : String
deriving DecidableEq, Repr

/-- The token estimate used inside LLMService.filter_messages_by_length:
the source always estimates with the fixed model "openai/gpt-3.5-turbo"
regardless of the conversation's model.  That identifier is registered, so
the lookup inside count_tokens always succeeds and the getD fallback is
never taken. -/
def filterTokenCount (content : String) : Nat :=
  (count_tokens content "openai/gpt-3.5-turbo").getD 0

/-- The character-length check of filter_messages_by_length:
`if max_char_length and len(content) > max_char_length`.  A missing or zero
ceiling is falsy in Python, disabling the check. -/
def charLengthExceeded (max_char_length : Option Nat) (content : String) : Bool :=
  match max_char_length with
  | none => false
  | some c => if c = 0 then false else decide (content.length > c)

/-- The truncated preview recorded for a deleted message:
content[:100] + "...". -/
def deletedPreview (content : String) : String :=
  content.take 100 ++ "..."

/-- The filter info dict returned by filter_messages_by_length. -/
structure FilterInfo where
  deleted_count : Nat
  deleted_content : List String
  remaining_count : Nat
deriving DecidableEq, Repr

/-- The loop of LLMService.filter_messages_by_length: drop a message when
the optional character ceiling is exceeded or when its gpt-3.5-turbo token
estimate exceeds the per-message ceiling; keep it otherwise.  Returns the
kept messages, the deleted count and the deleted previews, in order. -/
def filterLoop (max_message_length : Nat) (max_char_length : Option Nat) :
    List Message → List Message × Nat × List String
  | [] => ([], 0, [])
  | msg :: rest =>
    let next := filterLoop max_message_length max_char_length rest
    if charLengthExceeded max_char_length msg.content then
      (next.1, next.2.1 + 1, deletedPreview msg.content :: next.2.2)
    else if filterTokenCount msg.content > max_message_length then
      (next.1, next.2.1 + 1, deletedPreview msg.content :: next.2.2)
    else
      (msg :: next.1, next.2.1, next.2.2)

/-- LLMService.filter_messages_by_length from app/services/llm_service.py. -/
def filter_messages_by_length (messages : List Message) (max_message_length : Nat)
    (max_char_length : Option Nat) : List Message × FilterInfo :=
  let r := filterLoop max_message_length max_char_length messages
  (r.1, ⟨r.2.1, r.2.2, r.1.length⟩)

/-- The keep/drop decision of filter_messages_by_length for one message. -/
def msgKept (max_message_length : Nat) (max_char_length : Option Nat)
    (msg : Message) : Bool :=
  !charLengthExceeded max_char_length msg.content
    && decide (filterTokenCount msg.content ≤ max_message_length)

/-- The trim info dict returned by trim_messages_to_context: either the
budget-exhaustion error result or the regular result with its counters. -/
inductive TrimInfo where
  | error (reason : String) (system_tokens : Nat) (available_tokens : Int)
  | trimmed (messages_removed : Nat) (messages_kept : Nat) (tokens_used : Nat)
      (available_tokens : Int) (tokens_used_by_messages : Nat)
deriving DecidableEq, Repr

/-- The loop of trim_messages_to_context: iterate over the reversed message
list (newest first) keeping the running state (trimmed, total_tokens,
removed_count); a message that fits the remaining budget is prepended to
trimmed (restoring original order), otherwise removed_count is incremented
and the walk continues with the next (older) message. -/
def trimFold (tokenOf : Message → Nat) (available : Int) :
    List Message × Nat × Nat → List Message → List Message × Nat × Nat
  | acc, [] => acc
  | (trimmed, total, removed), msg :: rest =>
    let msg_tokens := tokenOf msg
    if (total : Int) + (msg_tokens : Int) ≤ available then
      trimFold tokenOf available (msg :: trimmed, total + msg_tokens, removed) rest
    else
      trimFold tokenOf available (trimmed, total, removed + 1) rest

/-- LLMService.trim_messages_to_context from app/services/llm_service.py.
none models the ValueError raised for an unknown model; the in-loop token
estimates re-use the same configuration the leading lookup resolved. -/
def trim_messages_to_context (messages : List Message) (model : String)
    (system_prompt : String) (reserve_tokens : Nat) :
    Option (List Message × TrimInfo) :=
  match get_model_config model with
  | none => none
  | some config =>
    let max_input_tokens : Int := (config.context_window : Int) - (reserve_tokens : Int)
    let system_tokens : Nat := countTokensCfg system_prompt config
    let available_tokens : Int := max_input_tokens - (system_tokens : Int)
    if available_tokens ≤ 0 then
      some ([], TrimInfo.error "System prompt too large for context window"
        system_tokens available_tokens)
    else
      let r := trimFold (fun m => countTokensCfg m.content config) available_tokens
        ([], 0, 0) messages.reverse
      some (r.1, TrimInfo.trimmed r.2.2 r.1.length (system_tokens + r.2.1)
        available_tokens r.2.1)

/-- The operation info dict returned by clean_messages. -/
structure CleanInfo where
  filtering : FilterInfo
  trimming : TrimInfo
  total_removed : Nat
deriving DecidableEq, Repr

/-- trim_info.get("messages_removed", 0): the error result carries no
messages_removed key, so it contributes 0. -/
def trimInfoRemoved : TrimInfo → Nat
  | TrimInfo.error _ _ _ => 0
  | TrimInfo.trimmed removed _ _ _ _ => removed

/-- LLMService.clean_messages from app/services/llm_service.py: filter the
oversized messages (no character ceiling is passed at this call site), then
trim the survivors to the context window. -/
def clean_messages (messages : List Message) (model : String) (system_prompt : String)
    (max_message_length : Nat) (reserve_tokens : Nat) :
    Option (List Message × CleanInfo) :=
  let fr := filter_messages_by_length messages max_message_length none
  match trim_messages_to_context fr.1 model system_prompt reserve_tokens with
  | none => none
  | some tr =>
    some (tr.1, ⟨fr.2, tr.2, fr.2.deleted_count + trimInfoRemoved tr.2⟩)

/-- A summary dict as handled by SummarySlicingEngine
(app/utils/summary_utils.py), restricted to the seven contract keys; an
Option none field models an absent key.  The entities mapping is an
association list with the keys of a Python dict (no duplicates in any dict
the system builds). -/
structure SummaryDict where
  core_facts : Option (List String)
  user_preferences : Option (List String)
  decisions_made : Option (List String)
  constraints : Option (List String)
  open_questions : Option (List String)
  entities : Option (List (String × String))
  unlabeled : Option (List String)
deriving DecidableEq, Repr

/-- SummarySlicingEngine.SUMMARY_TYPES field lists; none for a key that is
not a summary type. -/
def SUMMARY_TYPES_fields (summary_type : String) : Option (List String) :=
  if summary_type = "small" then
    some ["core_facts", "user_preferences"]
  else if summary_type = "medium" then
    some ["core_facts", "user_preferences", "decisions_made", "constraints",
      "open_questions"]
  else if summary_type = "large" then
    some ["core_facts", "user_preferences", "decisions_made", "constraints",
      "open_questions", "entities"]
  else none

/-- SummarySlicingEngine.slice_summary: an unknown type falls back to
"medium"; the result holds exactly the listed fields that are present in
the input, with unchanged values. -/
def slice_summary (summary : SummaryDict) (summary_type : String) : SummaryDict :=
  let fields :=
    match SUMMARY_TYPES_fields summary_type with
    | some fs => fs
    | none => (SUMMARY_TYPES_fields "medium").getD []
  { core_facts := if "core_facts" ∈ fields then summary.core_facts else none,
    user_preferences := if "user_preferences" ∈ fields then summary.user_preferences else none,
    decisions_made := if "decisions_made" ∈ fields then summary.decisions_made else none,
    constraints := if "constraints" ∈ fields then summary.constraints else none,
    open_questions := if "open_questions" ∈ fields then summary.open_questions else none,
    entities := if "entities" ∈ fields then summary.entities else none,
    unlabeled := if "unlabeled" ∈ fields then summary.unlabeled else none }

/-- Lexicographic comparison of character lists by code point, the order
Python uses to compare strings. -/
def lexLe : List Char → List Char → Bool
  | [], _ => true
  | _ :: _, [] => false
  | a :: as, b :: bs => if a < b then true else if b < a then false else lexLe as bs

/-- Python's string comparison a <= b: lexicographic by code point. -/
def strLe (a b : String) : Bool :=
  lexLe a.toList b.toList

/-- sorted(list(set(a) | set(b))) for string lists: the ascending
enumeration of the distinct elements of a and b.  Python's sorted over a
set of distinct strings and this insertion sort produce the same list: the
unique ordering of those elements under lexicographic (code-point)
comparison. -/
def sortedSetUnion (a b : List String) : List String :=
  List.insertionSort (fun x y => strLe x y = true) ((a ++ b).dedup)

/-- d[k] = v on an association-list dict: replace the binding in place if
the key exists, append it otherwise (Python dict assignment). -/
def setKey : List (String × String) → String → String → List (String × String)
  | [], k, v => [(k, v)]
  | (k0, v0) :: rest, k, v =>
    if k0 = k then (k, v) :: rest else (k0, v0) :: setKey rest k v

/-- The dict merge {**a, **b}: start from a and assign every binding of b
in order, so b's value wins on common keys. -/
def dictUpdate (a b : List (String × String)) : List (String × String) :=
  b.foldl (fun acc kv => setKey acc kv.1 kv.2) a

/-- The key list of an association-list dict. -/
def dictKeys (d : List (String × String)) : List String :=
  d.map Prod.fst

/-- SummarySlicingEngine.merge_summaries from app/utils/summary_utils.py:
the merged dict is initialised with exactly the five list categories and
entities; each list category becomes the sorted deduplicated union of both
inputs, entities becomes {**previous, **new_items}, and no "unlabeled" key
is ever written (modelled as none). -/
def merge_summaries (previous new_items : SummaryDict) : SummaryDict :=
  { core_facts := some (sortedSetUnion (previous.core_facts.getD [])
      (new_items.core_facts.getD [])),
    user_preferences := some (sortedSetUnion (previous.user_preferences.getD [])
      (new_items.user_preferences.getD [])),
    decisions_made := some (sortedSetUnion (previous.decisions_made.getD [])
      (new_items.decisions_made.getD [])),
    constraints := some (sortedSetUnion (previous.constraints.getD [])
      (new_items.constraints.getD [])),
    open_questions := some (sortedSetUnion (previous.open_questions.getD [])
      (new_items.open_questions.getD [])),
    entities := some (dictUpdate (previous.entities.getD [])
      (new_items.entities.getD [])),
    unlabeled := none }

/-- A JSON value as classified by _validate_summary_structure: a list (whose
elements are the contract's strings), an object (string-to-string, the
entities shape), or any other JSON value. -/
inductive JVal where
  | jlist (items : List String)
  | jdict (entries : List (String × String))
  | jother
deriving DecidableEq, BEq, Repr

/-- d[k] = v on a parsed JSON object (Python dict assignment). -/
def jSet : List (String × JVal) → String → JVal → List (String × JVal)
  | [], k, v => [(k, v)]
  | (k0, v0) :: rest, k, v =>
    if k0 = k then (k, v) :: rest else (k0, v0) :: jSet rest k v

/-- SummarizationService._empty_summary: all seven categories present and
empty. -/
def empty_summary_obj : List (String × JVal) :=
  [("core_facts", JVal.jlist []), ("user_preferences", JVal.jlist []),
   ("decisions_made", JVal.jlist []), ("constraints", JVal.jlist []),
   ("open_questions", JVal.jlist []), ("entities", JVal.jdict []),
   ("unlabeled", JVal.jlist [])]

/-- The required_fields dict of _validate_summary_structure: the seven
category keys with their default containers. -/
def required_fields : List (String × JVal) :=
  [("core_facts", JVal.jlist []), ("user_preferences", JVal.jlist []),
   ("decisions_made", JVal.jlist []), ("constraints", JVal.jlist []),
   ("open_questions", JVal.jlist []), ("entities", JVal.jdict []),
   ("unlabeled", JVal.jlist [])]

/-- isinstance(v, list) for a parsed JSON value. -/
def isListVal : JVal → Bool
  | JVal.jlist _ => true
  | _ => false

/-- isinstance(v, dict) for a parsed JSON value. -/
def isDictVal : JVal → Bool
  | JVal.jdict _ => true
  | _ => false

/-- One pass of the _validate_summary_structure loop body for a single
required field: inserted with its default when absent, coerced to the empty
container of the required kind when present with the wrong type, untouched
otherwise. -/
def coerceField (data : List (String × JVal)) (field : String) (default : JVal) :
    List (String × JVal) :=
  match data.lookup field with
  | none => jSet data field default
  | some v =>
    if isListVal default && !isListVal v then jSet data field (JVal.jlist [])
    else if isDictVal default && !isDictVal v then jSet data field (JVal.jdict [])
    else data

/-- SummarizationService._validate_summary_structure: guarantee every
required category key exists with the correct container type. -/
def validate_summary_structure (data : List (String × JVal)) : List (String × JVal) :=
  required_fields.foldl (fun d fd => coerceField d fd.1 fd.2) data

/-- A message handed to the summarizer (sender, role, content). -/
structure SumMessage where
  sender : String
  role : String
  content : String
deriving DecidableEq, Repr

/-- The outcome of the outbound completion call made by
summarize_conversation: generated text, or a raised error. -/
inductive LLMOutcome where
  | success (text : String)
  | failure (err : String)
deriving DecidableEq, Repr

/-- SummarizationService.summarize_conversation from
app/services/summarization_service.py, with the completion collaborator and
the json.loads parser supplied as parameters (parse t = none models a
JSONDecodeError on text t; a some result is the parsed object).  An empty
message list short-circuits to the empty summary; a parse failure returns
the empty summary; a model-call failure re-raises as
"Failed to summarize conversation: ..."; a successful parse is validated
and returned.  previous_summary only shapes the prompt text, not the
control flow. -/
def summarize_conversation (parse : String → Option (List (String × JVal)))
    (llm : LLMOutcome) (messages : List SumMessage)
    (previous_summary : Option (List (String × JVal))) :
    Except String (List (String × JVal)) :=
  if messages = [] then Except.ok empty_summary_obj
  else
    match llm with
    | LLMOutcome.failure e => Except.error ("Failed to summarize conversation: " ++ e)
    | LLMOutcome.success response_text =>
      match parse response_text with
      | none => Except.ok empty_summary_obj
      | some summary_data => Except.ok (validate_summary_structure summary_data)

/-- ThreadService._trigger_summarization from app/services/thread_service.py
acting on the stored summary of one thread: an empty message batch returns
without change; otherwise the summarize result is upserted.  The outer
match is the try/except that logs any error and returns normally, so the
operation never propagates a failure and leaves the stored summary
unchanged on error. -/
def trigger_summarization (parse : String → Option (List (String × JVal)))
    (llm : LLMOutcome) (messages : List SumMessage)
    (stored : Option (List (String × JVal))) :
    Except String (Option (List (String × JVal))) :=
  let body : Except String (Option (List (String × JVal))) :=
    if messages = [] then Except.ok stored
    else
      match summarize_conversation parse llm messages stored with
      | Except.ok summary_data => Except.ok (some summary_data)
      | Except.error e => Except.error e
  match body with
  | Except.ok r => Except.ok r
  | Except.error _ => Except.ok stored

/-- All seven categories present and empty in a summary object. -/
def hasSevenEmptyCategories (d : List (String × JVal)) : Bool :=
  (d.lookup "core_facts" == some (JVal.jlist []))
  && (d.lookup "user_preferences" == some (JVal.jlist []))
  && (d.lookup "decisions_made" == some (JVal.jlist []))
  && (d.lookup "constraints" == some (JVal.jlist []))
  && (d.lookup "open_questions" == some (JVal.jlist []))
  && (d.lookup "entities" == some (JVal.jdict []))
  && (d.lookup "unlabeled" == some (JVal.jlist []))

/-- ThreadService.SUMMARIZATION_THRESHOLD. -/
def SUMMARIZATION_THRESHOLD : Nat := 4

/-- The outcome of one orchestrated turn: either the turn ran to completion
(recording whether it triggered summarization), or it raised
ModuleNotFoundError at the `from app.services.summary_utils import ...`
statement. -/
inductive TurnResult where
  | completed (fired : Bool)
  | moduleNotFoundError
deriving DecidableEq, Repr

/-- The per-thread state that drives the summarization threshold:
the number of persisted messages, and, when a summary row exists, the
number of messages that had been persisted when that summary was created.
Messages carry strictly increasing timestamps and the summary row's
created_at is taken after the messages it covers, so "messages since the
last summary" is the difference of these counters. -/
structure ThreadState where
  num_messages : Nat
  last_summary : Option Nat
deriving DecidableEq, Repr

/-- One ThreadService.process_user_message turn, restricted to the
persistence and threshold logic (message content is abstracted away, and
the completion collaborator is assumed to succeed; its failures are
failure-isolated separately by the summarization service).  The turn saves
the user message and fetches the messages since the last summary (the user
message included).  When a stored summary exists, the source then executes
`from app.services.summary_utils import ...` before the try/except beneath
it — a module that does not exist in the repository (the file lives at
app/utils/summary_utils.py and app/services has no summary_utils and no
package alias), so the turn raises ModuleNotFoundError there, after the
user message was persisted but before the agent response is saved and
before the threshold check.  Only when no summary exists does the turn run
to completion: it saves the agent response and fires summarization when
len(recent_messages) + 2 reaches SUMMARIZATION_THRESHOLD, the upserted
summary's timestamp moving past every persisted message. -/
def processTurn (s : ThreadState) : ThreadState × TurnResult :=
  let afterUser := s.num_messages + 1
  let recent := afterUser - (s.last_summary.getD 0)
  match s.last_summary with
  | some k =>
      (⟨afterUser, some k⟩, TurnResult.moduleNotFoundError)
  | none =>
      let afterAgent := afterUser + 1
      let total_messages := recent + 2
      let fire := decide (SUMMARIZATION_THRESHOLD ≤ total_messages)
      (⟨afterAgent, if fire then some afterAgent else none⟩, TurnResult.completed fire)

/-- The fresh conversation processed one user message at a time: state after
n turns, each turn persisting whatever it reached before completing or
raising. -/
def runThread : Nat → ThreadState
  | 0 => ⟨0, none⟩
  | n + 1 => (processTurn (runThread n)).1

/-- The outcome of turn n+1 of the fresh run (acting on the state after n
turns). -/
def turnResult (n : Nat) : TurnResult :=
  (processTurn (runThread n)).2

/-- Every provider family is charged the same 1.3 tokens per word (the four
listed providers explicitly, the remaining one through the dict default). -/
theorem tokensPerWord10_eq (p : ModelProvider) : tokensPerWord10 p = 13 := by
  cases p <;> rfl

/-- C7: for every registered model, the token estimate of the empty string
is 0; the estimate of any non-empty string (whitespace-only included) is at
least 1; and for any string with at least one whitespace-separated word the
estimate equals the word count times the provider's tokens-per-word constant
floored to an integer (the minimum-1 clamp being inactive there), where that
constant is 1.3 (13/10) for every provider. -/
theorem count_tokens_estimate (model : String) (config : ModelConfig)
    (hm : get_model_config model = some config) :
    count_tokens "" model = some 0
    ∧ (∀ text : String, text ≠ "" → ∃ n : Nat, count_tokens text model = some n ∧ 1 ≤ n)
    ∧ (∀ text : String, 1 ≤ wordCount text →
        count_tokens text model
          = some ((wordCount text * tokensPerWord10 config.provider) / 10))
    ∧ tokensPerWord10 config.provider = 13 := by
  refine ⟨by simp [count_tokens], ?_, ?_, tokensPerWord10_eq _⟩
  · intro text ht
    refine ⟨countTokensCfg text config, ?_, ?_⟩
    · simp [count_tokens, ht, hm]
    · simp [countTokensCfg, ht]
  · intro text hw
    have ht : text ≠ "" := by
      intro h
      rw [h] at hw
      simp [wordCount, wordCountAux, String.toList] at hw
    have htok : countTokensCfg text config
        = (wordCount text * tokensPerWord10 config.provider) / 10 := by
      have h13 : tokensPerWord10 config.provider = 13 := tokensPerWord10_eq _
      have hmul : 10 ≤ wordCount text * 13 := by
        have := Nat.mul_le_mul_right 13 hw
        omega
      have hdiv : 1 ≤ wordCount text * 13 / 10 := by
        rw [Nat.le_div_iff_mul_le (by norm_num)]
        omega
      simp [countTokensCfg, ht, h13]
      omega
    simp [count_tokens, ht, hm, htok]

/-- Witness for count_tokens_estimate at the registered model
"openai/gpt-4". -/
theorem count_tokens_estimate_witness :
    count_tokens "" "openai/gpt-4" = some 0
    ∧ (∀ text : String, text ≠ "" →
        ∃ n : Nat, count_tokens text "openai/gpt-4" = some n ∧ 1 ≤ n)
    ∧ (∀ text : String, 1 ≤ wordCount text →
        count_tokens text "openai/gpt-4"
          = some ((wordCount text * tokensPerWord10 ModelProvider.openai) / 10))
    ∧ tokensPerWord10 ModelProvider.openai = 13 :=
  count_tokens_estimate "openai/gpt-4"
    ⟨"openai/gpt-4", ModelProvider.openai, 8192, 8192, SummarySize.large⟩ (by rfl)

/-- add_tokens changes neither the model configuration nor the buffer. -/
theorem applyAdds_preserves (s : ContextWindowManager) (adds : List (String × String)) :
    (s.applyAdds adds).config = s.config ∧ (s.applyAdds adds).buffer = s.buffer := by
  induction adds generalizing s with
  | nil => exact ⟨rfl, rfl⟩
  | cons a rest ih =>
      have h := ih ((s.add_tokens a.1 a.2).1)
      exact ⟨h.1, h.2⟩

/-- C6: after any sequence of add-token operations on a budget created for a
registered model, get_available_tokens returns
max(0, context_window - used_tokens - buffer), and can_fit text is true
exactly when the token estimate of text is at most that value (hence false
whenever the estimate exceeds it). -/
theorem available_tokens_and_can_fit (model : String) (buffer : Nat)
    (s0 : ContextWindowManager)
    (h0 : mkContextWindowManager model buffer = some s0)
    (adds : List (String × String)) :
    ((s0.applyAdds adds).get_available_tokens
      = max 0 (((s0.applyAdds adds).config.context_window : Int)
          - ((s0.applyAdds adds).used_tokens : Int) - (buffer : Int)))
    ∧ ∀ text : String,
        (((s0.applyAdds adds).can_fit text = true)
          ↔ (countTokensCfg text (s0.applyAdds adds).config : Int)
              ≤ (s0.applyAdds adds).get_available_tokens)
        ∧ (((s0.applyAdds adds).get_available_tokens
              < (countTokensCfg text (s0.applyAdds adds).config : Int))
            → (s0.applyAdds adds).can_fit text = false) := by
  have hbuf : (s0.applyAdds adds).buffer = buffer := by
    have hmk : s0.buffer = buffer := by
      unfold mkContextWindowManager at h0
      cases hc : get_model_config model with
      | none => rw [hc] at h0; simp at h0
      | some cfg => rw [hc] at h0; simp at h0; rw [← h0]
    rw [(applyAdds_preserves s0 adds).2, hmk]
  constructor
  · rw [ContextWindowManager.get_available_tokens, hbuf]
  · intro text
    constructor
    · rw [ContextWindowManager.can_fit]
      exact decide_eq_true_iff
    · intro hlt
      rw [ContextWindowManager.can_fit]
      simp only [decide_eq_false_iff_not]
      omega

/-- Witness for available_tokens_and_can_fit: a budget for
"anthropic/claude-3-haiku" with buffer 500 and one add operation. -/
theorem available_tokens_and_can_fit_witness :
    ((ContextWindowManager.applyAdds
        ⟨"anthropic/claude-3-haiku",
          ⟨"anthropic/claude-3-haiku", ModelProvider.anthropic, 1024, 200000,
            SummarySize.small⟩, 500, 0, []⟩ [("hello world", "message")]).get_available_tokens
      = max 0 (((ContextWindowManager.applyAdds
          ⟨"anthropic/claude-3-haiku",
            ⟨"anthropic/claude-3-haiku", ModelProvider.anthropic, 1024, 200000,
              SummarySize.small⟩, 500, 0, []⟩
          [("hello world", "message")]).config.context_window : Int)
          - ((ContextWindowManager.applyAdds
              ⟨"anthropic/claude-3-haiku",
                ⟨"anthropic/claude-3-haiku", ModelProvider.anthropic, 1024, 200000,
                  SummarySize.small⟩, 500, 0, []⟩
              [("hello world", "message")]).used_tokens : Int) - (500 : Int)))
    ∧ ∀ text : String,
        (((ContextWindowManager.applyAdds
            ⟨"anthropic/claude-3-haiku",
              ⟨"anthropic/claude-3-haiku", ModelProvider.anthropic, 1024, 200000,
                SummarySize.small⟩, 500, 0, []⟩ [("hello world", "message")]).can_fit text = true)
          ↔ (countTokensCfg text (ContextWindowManager.applyAdds
              ⟨"anthropic/claude-3-haiku",
                ⟨"anthropic/claude-3-haiku", ModelProvider.anthropic, 1024, 200000,
                  SummarySize.small⟩, 500, 0, []⟩
              [("hello world", "message")]).config : Int)
              ≤ (ContextWindowManager.applyAdds
                  ⟨"anthropic/claude-3-haiku",
                    ⟨"anthropic/claude-3-haiku", ModelProvider.anthropic, 1024, 200000,
                      SummarySize.small⟩, 500, 0, []⟩
                  [("hello world", "message")]).get_available_tokens)
        ∧ (((ContextWindowManager.applyAdds
              ⟨"anthropic/claude-3-haiku",
                ⟨"anthropic/claude-3-haiku", ModelProvider.anthropic, 1024, 200000,
                  SummarySize.small⟩, 500, 0, []⟩
              [("hello world", "message")]).get_available_tokens
              < (countTokensCfg text (ContextWindowManager.applyAdds
                  ⟨"anthropic/claude-3-haiku",
                    ⟨"anthropic/claude-3-haiku", ModelProvider.anthropic, 1024, 200000,
                      SummarySize.small⟩, 500, 0, []⟩
                  [("hello world", "message")]).config : Int))
            → (ContextWindowManager.applyAdds
                ⟨"anthropic/claude-3-haiku",
                  ⟨"anthropic/claude-3-haiku", ModelProvider.anthropic, 1024, 200000,
                    SummarySize.small⟩, 500, 0, []⟩
                [("hello world", "message")]).can_fit text = false) :=
  available_tokens_and_can_fit "anthropic/claude-3-haiku" 500
    ⟨"anthropic/claude-3-haiku",
      ⟨"anthropic/claude-3-haiku", ModelProvider.anthropic, 1024, 200000,
        SummarySize.small⟩, 500, 0, []⟩ (by rfl) [("hello world", "message")]

/-- The running-total discipline yields the indexed prefix-sum property. -/
theorem cumulativeOk_get (l : List HistEntry) (acc : Nat) (h : cumulativeOk acc l) :
    ∀ i (hi : i < l.length),
      (l.get ⟨i, hi⟩).cumulative = acc + ((l.take (i+1)).map HistEntry.tokens).sum := by
  induction l generalizing acc with
  | nil => intro i hi; simp at hi
  | cons e rest ih =>
      obtain ⟨h1, h2⟩ := h
      intro i hi
      cases i with
      | zero => simpa using h1
      | succ m =>
          have hrec := ih (acc + e.tokens) h2 m (by simpa using hi)
          simp only [List.get_cons_succ, List.take_succ_cons, List.map_cons, List.sum_cons]
          omega

/-- Appending an entry whose cumulative field extends the running total
preserves the running-total discipline. -/
theorem cumulativeOk_append (l : List HistEntry) (acc : Nat) (e : HistEntry)
    (h : cumulativeOk acc l)
    (he : e.cumulative = acc + (l.map HistEntry.tokens).sum + e.tokens) :
    cumulativeOk acc (l ++ [e]) := by
  induction l generalizing acc with
  | nil =>
      refine ⟨?_, trivial⟩
      simpa using he
  | cons x rest ih =>
      obtain ⟨h1, h2⟩ := h
      refine ⟨h1, ih (acc + x.tokens) h2 ?_⟩
      simp only [List.map_cons, List.sum_cons] at he
      omega

/-- The running-total discipline gives the last entry's cumulative as the
total sum of deltas. -/
theorem cumulativeOk_getLast (l : List HistEntry) (acc : Nat) (h : cumulativeOk acc l) :
    ∀ e, l.getLast? = some e → e.cumulative = acc + (l.map HistEntry.tokens).sum := by
  induction l generalizing acc with
  | nil => intro e he; simp at he
  | cons x rest ih =>
      obtain ⟨h1, h2⟩ := h
      intro e he
      cases rest with
      | nil =>
          simp at he
          rw [← he]
          simpa using h1
      | cons y ys =>
          rw [List.getLast?_cons_cons] at he
          have := ih (acc + x.tokens) h2 e he
          simp only [List.map_cons, List.sum_cons] at this ⊢
          omega

/-- The counter/history invariant preserved by every operation. -/
theorem cwm_inv_applyOp (s : ContextWindowManager) (op : CWMOp)
    (h : s.used_tokens = (s.token_history.map HistEntry.tokens).sum
      ∧ cumulativeOk 0 s.token_history) :
    (s.applyOp op).used_tokens
        = ((s.applyOp op).token_history.map HistEntry.tokens).sum
    ∧ cumulativeOk 0 (s.applyOp op).token_history := by
  obtain ⟨h1, h2⟩ := h
  cases op with
  | reset => exact ⟨rfl, trivial⟩
  | add text source =>
      constructor
      · simp [ContextWindowManager.applyOp, ContextWindowManager.add_tokens, h1]
      · refine cumulativeOk_append _ _ _ h2 ?_
        simp [ContextWindowManager.add_tokens, h1]

/-- The counter/history invariant holds after any operation sequence from an
invariant-satisfying state. -/
theorem cwm_inv_applyOps (s : ContextWindowManager) (ops : List CWMOp)
    (h : s.used_tokens = (s.token_history.map HistEntry.tokens).sum
      ∧ cumulativeOk 0 s.token_history) :
    (s.applyOps ops).used_tokens
        = ((s.applyOps ops).token_history.map HistEntry.tokens).sum
    ∧ cumulativeOk 0 (s.applyOps ops).token_history := by
  induction ops generalizing s with
  | nil => exact h
  | cons op rest ih => exact ih (s.applyOp op) (cwm_inv_applyOp s op h)

/-- C10: after any sequence of add_tokens and reset operations on a freshly
constructed ContextWindowManager, used_tokens equals the sum of the token
deltas in token_history; each history entry's cumulative field equals the
running sum of deltas up to and including that entry; the last entry's
cumulative equals used_tokens; and an empty history forces used_tokens = 0
(as after a reset). -/
theorem used_tokens_history_invariant (model : String) (buffer : Nat)
    (s0 : ContextWindowManager)
    (h0 : mkContextWindowManager model buffer = some s0) (ops : List CWMOp) :
    (s0.applyOps ops).used_tokens
        = (((s0.applyOps ops).token_history).map HistEntry.tokens).sum
    ∧ (∀ i (hi : i < (s0.applyOps ops).token_history.length),
        ((s0.applyOps ops).token_history.get ⟨i, hi⟩).cumulative
          = ((((s0.applyOps ops).token_history).take (i+1)).map HistEntry.tokens).sum)
    ∧ (∀ e, ((s0.applyOps ops).token_history).getLast? = some e
        → e.cumulative = (s0.applyOps ops).used_tokens)
    ∧ (((s0.applyOps ops).token_history = [])
        → (s0.applyOps ops).used_tokens = 0) := by
  have hfresh : s0.used_tokens = (s0.token_history.map HistEntry.tokens).sum
      ∧ cumulativeOk 0 s0.token_history := by
    unfold mkContextWindowManager at h0
    cases hc : get_model_config model with
    | none => rw [hc] at h0; simp at h0
    | some cfg =>
        rw [hc] at h0
        simp at h0
        rw [← h0]
        exact ⟨rfl, trivial⟩
  obtain ⟨h1, h2⟩ := cwm_inv_applyOps s0 ops hfresh
  refine ⟨h1, ?_, ?_, ?_⟩
  · intro i hi
    simpa using cumulativeOk_get _ 0 h2 i hi
  · intro e he
    rw [h1]
    simpa using cumulativeOk_getLast _ 0 h2 e he
  · intro hnil
    rw [h1, hnil]
    simp

/-- Witness for used_tokens_history_invariant: a manager for
"openai/gpt-4" with two adds around a reset. -/
theorem used_tokens_history_invariant_witness :
    (ContextWindowManager.applyOps
        ⟨"openai/gpt-4",
          ⟨"openai/gpt-4", ModelProvider.openai, 8192, 8192, SummarySize.large⟩,
          500, 0, []⟩
        [CWMOp.add "hello world" "message", CWMOp.reset,
         CWMOp.add "one two three" "response"]).used_tokens
      = (((ContextWindowManager.applyOps
          ⟨"openai/gpt-4",
            ⟨"openai/gpt-4", ModelProvider.openai, 8192, 8192, SummarySize.large⟩,
            500, 0, []⟩
          [CWMOp.add "hello world" "message", CWMOp.reset,
           CWMOp.add "one two three" "response"]).token_history).map HistEntry.tokens).sum
    ∧ (∀ i (hi : i < (ContextWindowManager.applyOps
          ⟨"openai/gpt-4",
            ⟨"openai/gpt-4", ModelProvider.openai, 8192, 8192, SummarySize.large⟩,
            500, 0, []⟩
          [CWMOp.add "hello world" "message", CWMOp.reset,
           CWMOp.add "one two three" "response"]).token_history.length),
        ((ContextWindowManager.applyOps
          ⟨"openai/gpt-4",
            ⟨"openai/gpt-4", ModelProvider.openai, 8192, 8192, SummarySize.large⟩,
            500, 0, []⟩
          [CWMOp.add "hello world" "message", CWMOp.reset,
           CWMOp.add "one two three" "response"]).token_history.get ⟨i, hi⟩).cumulative
          = ((((ContextWindowManager.applyOps
              ⟨"openai/gpt-4",
                ⟨"openai/gpt-4", ModelProvider.openai, 8192, 8192, SummarySize.large⟩,
                500, 0, []⟩
              [CWMOp.add "hello world" "message", CWMOp.reset,
               CWMOp.add "one two three" "response"]).token_history).take (i+1)).map
              HistEntry.tokens).sum)
    ∧ (∀ e, ((ContextWindowManager.applyOps
          ⟨"openai/gpt-4",
            ⟨"openai/gpt-4", ModelProvider.openai, 8192, 8192, SummarySize.large⟩,
            500, 0, []⟩
          [CWMOp.add "hello world" "message", CWMOp.reset,
           CWMOp.add "one two three" "response"]).token_history).getLast? = some e
        → e.cumulative = (ContextWindowManager.applyOps
            ⟨"openai/gpt-4",
              ⟨"openai/gpt-4", ModelProvider.openai, 8192, 8192, SummarySize.large⟩,
              500, 0, []⟩
            [CWMOp.add "hello world" "message", CWMOp.reset,
             CWMOp.add "one two three" "response"]).used_tokens)
    ∧ (((ContextWindowManager.applyOps
          ⟨"openai/gpt-4",
            ⟨"openai/gpt-4", ModelProvider.openai, 8192, 8192, SummarySize.large⟩,
            500, 0, []⟩
          [CWMOp.add "hello world" "message", CWMOp.reset,
           CWMOp.add "one two three" "response"]).token_history = [])
        → (ContextWindowManager.applyOps
            ⟨"openai/gpt-4",
              ⟨"openai/gpt-4", ModelProvider.openai, 8192, 8192, SummarySize.large⟩,
              500, 0, []⟩
            [CWMOp.add "hello world" "message", CWMOp.reset,
             CWMOp.add "one two three" "response"]).used_tokens = 0) :=
  used_tokens_history_invariant "openai/gpt-4" 500
    ⟨"openai/gpt-4",
      ⟨"openai/gpt-4", ModelProvider.openai, 8192, 8192, SummarySize.large⟩,
      500, 0, []⟩ (by rfl)
    [CWMOp.add "hello world" "message", CWMOp.reset,
     CWMOp.add "one two three" "response"]

/-- Every message kept by the filter loop passes both the character and the
token check. -/
theorem filterLoop_mem_kept (max_message_length : Nat) (max_char_length : Option Nat) :
    ∀ messages : List Message,
      ∀ m ∈ (filterLoop max_message_length max_char_length messages).1,
        msgKept max_message_length max_char_length m = true := by
  intro messages
  induction messages with
  | nil => intro m hm; simp [filterLoop] at hm
  | cons msg rest ih =>
      intro m hm
      by_cases hc : charLengthExceeded max_char_length msg.content = true
      · rw [filterLoop] at hm
        simp only [hc, if_true] at hm
        exact ih m hm
      · by_cases ht : filterTokenCount msg.content > max_message_length
        · rw [filterLoop] at hm
          simp only [hc, if_false, ht, if_true] at hm
          exact ih m hm
        · rw [filterLoop] at hm
          simp only [hc, if_false, ht, if_true] at hm
          rcases List.mem_cons.mp hm with h | h
          · rw [h, msgKept]
            simp only [hc, Bool.not_false, Bool.true_and]
            simpa using Nat.le_of_not_lt ht
          · exact ih m h

/-- The filter loop keeps a list unchanged, deleting nothing, when every
message passes both checks. -/
theorem filterLoop_all_kept (max_message_length : Nat) (max_char_length : Option Nat) :
    ∀ messages : List Message,
      (∀ m ∈ messages, msgKept max_message_length max_char_length m = true) →
      filterLoop max_message_length max_char_length messages = (messages, 0, []) := by
  intro messages
  induction messages with
  | nil => intro _; rfl
  | cons msg rest ih =>
      intro hall
      have hmsg := hall msg (List.mem_cons_self msg rest)
      rw [msgKept, Bool.and_eq_true] at hmsg
      have hc : charLengthExceeded max_char_length msg.content = false := by
        rcases hmsg with ⟨h1, _⟩
        simpa using h1
      have ht : ¬ filterTokenCount msg.content > max_message_length := by
        rcases hmsg with ⟨_, h2⟩
        simpa using Nat.not_lt.mpr (of_decide_eq_true h2)
      rw [filterLoop, ih (fun m hm => hall m (List.mem_cons_of_mem msg hm))]
      simp [hc, ht]

/-- C8: the oversized-message filter is idempotent: applied to its own
output (same token ceiling, same optional character ceiling), it returns
that output unchanged and reports zero deleted messages and no deleted
previews. -/
theorem filter_messages_idempotent (messages : List Message)
    (max_message_length : Nat) (max_char_length : Option Nat) :
    filter_messages_by_length
        (filter_messages_by_length messages max_message_length max_char_length).1
        max_message_length max_char_length
      = ((filter_messages_by_length messages max_message_length max_char_length).1,
         ⟨0, [],
          (filter_messages_by_length messages max_message_length max_char_length).1.length⟩) := by
  rw [filter_messages_by_length, filter_messages_by_length]
  rw [filterLoop_all_kept max_message_length max_char_length _
    (filterLoop_mem_kept max_message_length max_char_length messages)]


/-- From the third turn on, the fresh run is stuck: the summary stored at
the end of turn 2 makes every later turn save its user message and then
raise at the missing import, so each turn adds exactly one message and the
summary marker never moves again. -/
theorem runThread_crashed_closed (n : Nat) :
    runThread (n + 2) = ⟨n + 4, some 4⟩ := by
  induction n with
  | zero => rfl
  | succ m ih =>
      have hstep : runThread (m + 1 + 2) = (processTurn (runThread (m + 2))).1 := rfl
      rw [hstep, ih]
      simp only [processTurn]

/-- C3: the claimed threshold recurrence is not program behaviour.  In the
fresh run, turn 1 completes without firing (2 messages since the start,
below the threshold) and turn 2 completes and fires exactly as the count
reaches 4; but the summary stored by that firing makes every later turn
raise ModuleNotFoundError at the missing app.services.summary_utils import,
after saving only its user message and before the threshold check, so
summarization never fires again: by the end of turn 6 four messages have
accumulated since the last summary while that turn raised instead of
summarizing. -/
theorem summarization_crashes_after_first_summary :
    turnResult 0 = TurnResult.completed false
    ∧ (runThread 1).num_messages - ((runThread 1).last_summary.getD 0) = 2
    ∧ turnResult 1 = TurnResult.completed true
    ∧ runThread 2 = ⟨4, some 4⟩
    ∧ (∀ n : Nat, turnResult (n + 2) = TurnResult.moduleNotFoundError)
    ∧ (∀ n : Nat, runThread (n + 2) = ⟨n + 4, some 4⟩)
    ∧ (runThread 6).num_messages - ((runThread 6).last_summary.getD 0) = 4
    ∧ turnResult 5 = TurnResult.moduleNotFoundError := by
  refine ⟨by decide, by decide, by decide, by decide, ?_,
    runThread_crashed_closed, by decide, by decide⟩
  intro n
  rw [turnResult, runThread_crashed_closed n]
  rfl

/-- The kept list produced by the trim loop is a subsequence of the
processed (reversed) input followed by the accumulator. -/
theorem trimFold_sublist (tokenOf : Message → Nat) (available : Int) :
    ∀ (l : List Message) (acc : List Message × Nat × Nat),
      (trimFold tokenOf available acc l).1.Sublist (l.reverse ++ acc.1) := by
  intro l
  induction l with
  | nil => intro acc; simp [trimFold]
  | cons msg rest ih =>
      intro acc
      obtain ⟨trimmed, total, removed⟩ := acc
      rw [trimFold]
      by_cases h : ((total : Int) + (tokenOf msg : Int) ≤ available)
      · rw [if_pos h]
        have hrec := ih (msg :: trimmed, total + tokenOf msg, removed)
        simpa [List.reverse_cons, List.append_assoc] using hrec
      · rw [if_neg h]
        have hrec := ih (trimmed, total, removed + 1)
        refine hrec.trans ?_
        rw [List.reverse_cons, List.append_assoc]
        exact ((List.sublist_cons_self msg trimmed).append_left rest.reverse)

/-- The trim loop's running total is the token sum of its kept list. -/
theorem trimFold_total_sum (tokenOf : Message → Nat) (available : Int) :
    ∀ (l : List Message) (acc : List Message × Nat × Nat),
      acc.2.1 = (acc.1.map tokenOf).sum →
      (trimFold tokenOf available acc l).2.1
        = ((trimFold tokenOf available acc l).1.map tokenOf).sum := by
  intro l
  induction l with
  | nil => intro acc h; simpa [trimFold] using h
  | cons msg rest ih =>
      intro acc h
      obtain ⟨trimmed, total, removed⟩ := acc
      rw [trimFold]
      by_cases hc : ((total : Int) + (tokenOf msg : Int) ≤ available)
      · rw [if_pos hc]
        refine ih (msg :: trimmed, total + tokenOf msg, removed) ?_
        simp at h ⊢
        omega
      · rw [if_neg hc]
        exact ih (trimmed, total, removed + 1) h

/-- The trim loop never lets the running total exceed the available budget
once it starts within it. -/
theorem trimFold_total_le (tokenOf : Message → Nat) (available : Int) :
    ∀ (l : List Message) (acc : List Message × Nat × Nat),
      (acc.2.1 : Int) ≤ available →
      ((trimFold tokenOf available acc l).2.1 : Int) ≤ available := by
  intro l
  induction l with
  | nil => intro acc h; simpa [trimFold] using h
  | cons msg rest ih =>
      intro acc h
      obtain ⟨trimmed, total, removed⟩ := acc
      rw [trimFold]
      by_cases hc : ((total : Int) + (tokenOf msg : Int) ≤ available)
      · rw [if_pos hc]
        refine ih (msg :: trimmed, total + tokenOf msg, removed) ?_
        push_cast
        omega
      · rw [if_neg hc]
        exact ih (trimmed, total, removed + 1) h

/-- Every processed message is either kept or counted as removed. -/
theorem trimFold_count (tokenOf : Message → Nat) (available : Int) :
    ∀ (l : List Message) (acc : List Message × Nat × Nat),
      (trimFold tokenOf available acc l).2.2
          + (trimFold tokenOf available acc l).1.length
        = acc.2.2 + acc.1.length + l.length := by
  intro l
  induction l with
  | nil => intro acc; simp [trimFold]
  | cons msg rest ih =>
      intro acc
      obtain ⟨trimmed, total, removed⟩ := acc
      rw [trimFold]
      by_cases hc : ((total : Int) + (tokenOf msg : Int) ≤ available)
      · rw [if_pos hc]
        have := ih (msg :: trimmed, total + tokenOf msg, removed)
        simp at this ⊢
        omega
      · rw [if_neg hc]
        have := ih (trimmed, total, removed + 1)
        simp at this ⊢
        omega

/-- C1 (amended): when trimming returns its regular result, the retained
messages are a subsequence of the input (original oldest-first order, no
reordering); the reported message-token usage is exactly the token sum of
the retained messages and stays within the positive available budget; and
the kept/removed counters partition the input.  (The original claim's
stronger eviction clause — that the first overflowing message evicts all
older ones, so the result is a suffix — is refuted by
trim_retains_older_while_evicting_newer.) -/
theorem trim_messages_greedy (messages : List Message) (model : String)
    (system_prompt : String) (reserve_tokens : Nat) (config : ModelConfig)
    (trimmed : List Message) (removed kept tokens_used : Nat)
    (avail : Int) (msg_tokens : Nat)
    (hcfg : get_model_config model = some config)
    (h : trim_messages_to_context messages model system_prompt reserve_tokens
      = some (trimmed, TrimInfo.trimmed removed kept tokens_used avail msg_tokens)) :
    trimmed.Sublist messages
    ∧ msg_tokens = (trimmed.map (fun m => countTokensCfg m.content config)).sum
    ∧ (msg_tokens : Int) ≤ avail
    ∧ kept = trimmed.length
    ∧ removed + trimmed.length = messages.length
    ∧ 0 < avail := by
  rw [trim_messages_to_context, hcfg] at h
  simp only at h
  by_cases hav : ((config.context_window : Int) - (reserve_tokens : Int)
      - (countTokensCfg system_prompt config : Int)) ≤ 0
  · rw [if_pos hav] at h
    simp at h
  · rw [if_neg hav] at h
    simp only [Option.some.injEq, Prod.mk.injEq, TrimInfo.trimmed.injEq] at h
    obtain ⟨htr, hrem, hkept, _, havail, htok⟩ := h
    have hsub := trimFold_sublist (fun m => countTokensCfg m.content config)
      ((config.context_window : Int) - (reserve_tokens : Int)
        - (countTokensCfg system_prompt config : Int)) messages.reverse ([], 0, 0)
    have hsum := trimFold_total_sum (fun m => countTokensCfg m.content config)
      ((config.context_window : Int) - (reserve_tokens : Int)
        - (countTokensCfg system_prompt config : Int)) messages.reverse ([], 0, 0) (by simp)
    have hle := trimFold_total_le (fun m => countTokensCfg m.content config)
      ((config.context_window : Int) - (reserve_tokens : Int)
        - (countTokensCfg system_prompt config : Int)) messages.reverse ([], 0, 0)
      (by simp; omega)
    have hcnt := trimFold_count (fun m => countTokensCfg m.content config)
      ((config.context_window : Int) - (reserve_tokens : Int)
        - (countTokensCfg system_prompt config : Int)) messages.reverse ([], 0, 0)
    refine ⟨?_, ?_, ?_, ?_, ?_, by omega⟩
    · rw [← htr]
      simpa using hsub
    · rw [← htok, ← htr]
      exact hsum
    · rw [← htok, ← havail]
      exact hle
    · rw [← hkept, ← htr]
    · rw [← hrem, ← htr]
      simpa using hcnt

/-- C1 (counterexample): trimming can evict a newer message while retaining
an older one.  With model "openai/gpt-3.5-turbo" (context window 4096),
empty system prompt and reserve 4086 (available budget 10), the middle
8-word message (10 tokens) overflows and is evicted, yet the loop continues
and keeps the older 1-token message, so the result [a, c] is not a suffix of
the input [a, b, c]: the claimed "once a message would overflow, it and all
older messages are evicted entirely" fails. -/
theorem trim_retains_older_while_evicting_newer :
    trim_messages_to_context
        [⟨"user", "a"⟩, ⟨"user", "b1 b2 b3 b4 b5 b6 b7 b8"⟩, ⟨"user", "c"⟩]
        "openai/gpt-3.5-turbo" "" 4086
      = some ([⟨"user", "a"⟩, ⟨"user", "c"⟩], TrimInfo.trimmed 1 2 2 10 2)
    ∧ ¬ ([⟨"user", "a"⟩, ⟨"user", "c"⟩] : List Message).IsSuffix
        [⟨"user", "a"⟩, ⟨"user", "b1 b2 b3 b4 b5 b6 b7 b8"⟩, ⟨"user", "c"⟩]
    ∧ (⟨"user", "a"⟩ : Message) ∈ [(⟨"user", "a"⟩ : Message), ⟨"user", "c"⟩]
    ∧ (⟨"user", "b1 b2 b3 b4 b5 b6 b7 b8"⟩ : Message)
        ∉ [(⟨"user", "a"⟩ : Message), ⟨"user", "c"⟩] := by
  refine ⟨by decide, by decide, by decide, by decide⟩

/-- Witness for trim_messages_greedy at the concrete trim run of the
counterexample input. -/
theorem trim_messages_greedy_witness :
    ([⟨"user", "a"⟩, ⟨"user", "c"⟩] : List Message).Sublist
        [⟨"user", "a"⟩, ⟨"user", "b1 b2 b3 b4 b5 b6 b7 b8"⟩, ⟨"user", "c"⟩]
    ∧ (2 : Nat) = (([⟨"user", "a"⟩, ⟨"user", "c"⟩] : List Message).map
        (fun m => countTokensCfg m.content
          ⟨"openai/gpt-3.5-turbo", ModelProvider.openai, 4096, 4096,
            SummarySize.medium⟩)).sum
    ∧ ((2 : Nat) : Int) ≤ (10 : Int)
    ∧ (2 : Nat) = ([⟨"user", "a"⟩, ⟨"user", "c"⟩] : List Message).length
    ∧ 1 + ([⟨"user", "a"⟩, ⟨"user", "c"⟩] : List Message).length
        = ([⟨"user", "a"⟩, ⟨"user", "b1 b2 b3 b4 b5 b6 b7 b8"⟩,
            ⟨"user", "c"⟩] : List Message).length
    ∧ (0 : Int) < (10 : Int) :=
  trim_messages_greedy
    [⟨"user", "a"⟩, ⟨"user", "b1 b2 b3 b4 b5 b6 b7 b8"⟩, ⟨"user", "c"⟩]
    "openai/gpt-3.5-turbo" "" 4086
    ⟨"openai/gpt-3.5-turbo", ModelProvider.openai, 4096, 4096, SummarySize.medium⟩
    [⟨"user", "a"⟩, ⟨"user", "c"⟩] 1 2 2 10 2 (by rfl) (by decide)

/-- The filter stage keeps exactly the messages passing the per-message
keep/drop decision (which estimates with the fixed model
"openai/gpt-3.5-turbo" and never consults the conversation's model). -/
theorem filter_keeps_exactly (max_message_length : Nat) (max_char_length : Option Nat) :
    ∀ messages : List Message,
      (filter_messages_by_length messages max_message_length max_char_length).1
        = messages.filter (msgKept max_message_length max_char_length) := by
  intro messages
  induction messages with
  | nil => rfl
  | cons msg rest ih =>
      rw [filter_messages_by_length] at ih ⊢
      simp only at ih ⊢
      rw [filterLoop]
      by_cases hc : charLengthExceeded max_char_length msg.content = true
      · have hk : msgKept max_message_length max_char_length msg = false := by
          rw [msgKept, hc]
          rfl
        simp only [hc, if_true, List.filter_cons, hk]
        simpa using ih
      · by_cases ht : filterTokenCount msg.content > max_message_length
        · have hk : msgKept max_message_length max_char_length msg = false := by
            rw [msgKept]
            have : decide (filterTokenCount msg.content ≤ max_message_length) = false := by
              simpa using Nat.not_le.mpr ht
            rw [this]
            simp
          simp only [hc, if_false, ht, if_true, List.filter_cons, hk]
          simpa using ih
        · have hk : msgKept max_message_length max_char_length msg = true := by
            rw [msgKept]
            have h1 : charLengthExceeded max_char_length msg.content = false := by
              simpa using hc
            have h2 : decide (filterTokenCount msg.content ≤ max_message_length) = true := by
              simpa using Nat.le_of_not_lt ht
            rw [h1, h2]
            rfl
          simp only [hc, if_false, ht, List.filter_cons, hk]
          simp [ih]

/-- C9: the keep/drop decision of the filter stage inside clean_messages is
independent of the conversation's target model: two runs over the same
messages with any two model identifiers record identical filter results,
which coincide with the model-free filter whose token estimate is pinned to
"openai/gpt-3.5-turbo". -/
theorem clean_filter_model_independent (messages : List Message)
    (system_prompt : String) (max_message_length reserve_tokens : Nat)
    (m1 m2 : String) (r1 r2 : List Message × CleanInfo)
    (h1 : clean_messages messages m1 system_prompt max_message_length reserve_tokens
      = some r1)
    (h2 : clean_messages messages m2 system_prompt max_message_length reserve_tokens
      = some r2) :
    r1.2.filtering = r2.2.filtering
    ∧ r1.2.filtering = (filter_messages_by_length messages max_message_length none).2
    ∧ (filter_messages_by_length messages max_message_length none).1
        = messages.filter (msgKept max_message_length none) := by
  have hf1 : r1.2.filtering
      = (filter_messages_by_length messages max_message_length none).2 := by
    rw [clean_messages] at h1
    cases htr : trim_messages_to_context
        (filter_messages_by_length messages max_message_length none).1 m1
        system_prompt reserve_tokens with
    | none => rw [htr] at h1; simp at h1
    | some tr =>
        rw [htr] at h1
        simp only [Option.some.injEq] at h1
        rw [← h1]
  have hf2 : r2.2.filtering
      = (filter_messages_by_length messages max_message_length none).2 := by
    rw [clean_messages] at h2
    cases htr : trim_messages_to_context
        (filter_messages_by_length messages max_message_length none).1 m2
        system_prompt reserve_tokens with
    | none => rw [htr] at h2; simp at h2
    | some tr =>
        rw [htr] at h2
        simp only [Option.some.injEq] at h2
        rw [← h2]
  exact ⟨by rw [hf1, hf2], hf1,
    filter_keeps_exactly max_message_length none messages⟩

/-- Witness for clean_filter_model_independent: the same two-message list
cleaned for "openai/gpt-4" and for "anthropic/claude-3-haiku". -/
theorem clean_filter_model_independent_witness :
    (([⟨"user", "hi there"⟩] : List Message),
        (⟨⟨0, [], 1⟩, TrimInfo.trimmed 0 1 2 7192 2, 0⟩ : CleanInfo)).2.filtering
      = (([⟨"user", "hi there"⟩] : List Message),
        (⟨⟨0, [], 1⟩, TrimInfo.trimmed 0 1 2 199000 2, 0⟩ : CleanInfo)).2.filtering
    ∧ (([⟨"user", "hi there"⟩] : List Message),
        (⟨⟨0, [], 1⟩, TrimInfo.trimmed 0 1 2 7192 2, 0⟩ : CleanInfo)).2.filtering
      = (filter_messages_by_length [⟨"user", "hi there"⟩] 5000 none).2
    ∧ (filter_messages_by_length [⟨"user", "hi there"⟩] 5000 none).1
        = ([⟨"user", "hi there"⟩] : List Message).filter (msgKept 5000 none) :=
  clean_filter_model_independent [⟨"user", "hi there"⟩] "" 5000 1000
    "openai/gpt-4" "anthropic/claude-3-haiku"
    ([⟨"user", "hi there"⟩], ⟨⟨0, [], 1⟩, TrimInfo.trimmed 0 1 2 7192 2, 0⟩)
    ([⟨"user", "hi there"⟩], ⟨⟨0, [], 1⟩, TrimInfo.trimmed 0 1 2 199000 2, 0⟩)
    (by decide) (by decide)

/-- C2: the seven-key summary shape does not round-trip.  For a store
containing all seven categories, slicing with size "large" keeps the six
categories of the large field list unchanged but drops unlabeled (the
SUMMARY_TYPES "large" entry, described as the complete summary, lists only
six fields), and merging two such stores yields a dict with no unlabeled
key (merge_summaries initialises six keys only), although the system's own
validation pass guarantees all seven keys on every stored summary. -/
theorem seven_key_shape_not_preserved :
    slice_summary ⟨some ["f"], some ["p"], some ["d"], some ["c"], some ["q"],
        some [("e", "x")], some ["u"]⟩ "large"
      = ⟨some ["f"], some ["p"], some ["d"], some ["c"], some ["q"],
        some [("e", "x")], none⟩
    ∧ (merge_summaries
        ⟨some ["f"], some ["p"], some ["d"], some ["c"], some ["q"],
          some [("e", "x")], some ["u"]⟩
        ⟨some ["f"], some ["p"], some ["d"], some ["c"], some ["q"],
          some [("e", "x")], some ["u"]⟩).unlabeled = none
    ∧ hasSevenEmptyCategories empty_summary_obj = true := by
  refine ⟨by decide, by decide, by decide⟩

/-- Totality of the code-point lexicographic comparison. -/
theorem lexLe_total : ∀ (as bs : List Char), lexLe as bs = true ∨ lexLe bs as = true := by
  intro as
  induction as with
  | nil => intro bs; left; rfl
  | cons a as ih =>
      intro bs
      cases bs with
      | nil => right; rfl
      | cons b bs =>
          rcases lt_trichotomy a b with h | h | h
          · left
            rw [lexLe, if_pos h]
          · subst h
            rcases ih bs with hl | hl
            · left
              rw [lexLe, if_neg (lt_irrefl a), if_neg (lt_irrefl a)]
              exact hl
            · right
              rw [lexLe, if_neg (lt_irrefl a), if_neg (lt_irrefl a)]
              exact hl
          · right
            rw [lexLe, if_pos h]

/-- Transitivity of the code-point lexicographic comparison. -/
theorem lexLe_trans : ∀ (as bs cs : List Char),
    lexLe as bs = true → lexLe bs cs = true → lexLe as cs = true := by
  intro as
  induction as with
  | nil => intro bs cs _ _; rfl
  | cons a as ih =>
      intro bs cs hab hbc
      cases bs with
      | nil => simp [lexLe] at hab
      | cons b bs =>
          cases cs with
          | nil => simp [lexLe] at hbc
          | cons c cs =>
              rw [lexLe] at hab hbc ⊢
              rcases lt_trichotomy a b with h1 | h1 | h1
              · rcases lt_trichotomy b c with h2 | h2 | h2
                · rw [if_pos (h1.trans h2)]
                · rw [if_pos (h2 ▸ h1)]
                · rw [if_neg (asymm h2), if_pos h2] at hbc
                  exact absurd hbc (by simp)
              · subst h1
                rcases lt_trichotomy a c with h2 | h2 | h2
                · rw [if_pos h2]
                · subst h2
                  rw [if_neg (lt_irrefl a), if_neg (lt_irrefl a)] at hab hbc ⊢
                  exact ih bs cs hab hbc
                · rw [if_neg (asymm h2), if_pos h2] at hbc
                  exact absurd hbc (by simp)
              · rw [if_neg (asymm h1), if_pos h1] at hab
                exact absurd hab (by simp)

/-- The sorted deduplicated union: membership is exactly union membership,
the result has no duplicates, and it is sorted under the code-point
lexicographic order. -/
theorem sortedSetUnion_spec (a b : List String) :
    (∀ x, x ∈ sortedSetUnion a b ↔ x ∈ a ∨ x ∈ b)
    ∧ (sortedSetUnion a b).Nodup
    ∧ (sortedSetUnion a b).Sorted (fun x y => strLe x y = true) := by
  have hperm := List.perm_insertionSort
    (fun x y : String => strLe x y = true) ((a ++ b).dedup)
  refine ⟨?_, ?_, ?_⟩
  · intro x
    rw [sortedSetUnion, hperm.mem_iff]
    simp [List.mem_dedup]
  · exact hperm.nodup_iff.mpr (List.nodup_dedup _)
  · haveI : IsTotal String (fun x y => strLe x y = true) :=
      ⟨fun x y => lexLe_total x.toList y.toList⟩
    haveI : IsTrans String (fun x y => strLe x y = true) :=
      ⟨fun x y z hxy hyz => lexLe_trans x.toList y.toList z.toList hxy hyz⟩
    exact List.sorted_insertionSort _ _

/-- Dict assignment: the assigned key is looked up to the assigned value. -/
theorem lookup_setKey_self : ∀ (d : List (String × String)) (k v : String),
    (setKey d k v).lookup k = some v := by
  intro d
  induction d with
  | nil => intro k v; simp [setKey, List.lookup]
  | cons kv rest ih =>
      intro k v
      obtain ⟨k1, v1⟩ := kv
      rw [setKey]
      by_cases h : k1 = k
      · rw [if_pos h]
        simp [List.lookup]
      · rw [if_neg h]
        rw [List.lookup]
        have hne : (k == k1) = false := by
          simp
          exact fun he => h he.symm
        rw [hne]
        exact ih k v

/-- Dict assignment leaves other keys' lookups unchanged. -/
theorem lookup_setKey_ne : ∀ (d : List (String × String)) (k k0 v : String),
    k0 ≠ k → (setKey d k v).lookup k0 = d.lookup k0 := by
  intro d
  induction d with
  | nil =>
      intro k k0 v h
      rw [setKey]
      simp only [List.lookup]
      rw [beq_eq_false_iff_ne.mpr h]
  | cons kv rest ih =>
      intro k k0 v h
      obtain ⟨k1, v1⟩ := kv
      rw [setKey]
      by_cases h1 : k1 = k
      · rw [if_pos h1]
        subst h1
        simp only [List.lookup]
        rw [beq_eq_false_iff_ne.mpr h]
      · rw [if_neg h1]
        simp only [List.lookup]
        by_cases h2 : k0 = k1
        · rw [beq_iff_eq.mpr h2]
        · rw [beq_eq_false_iff_ne.mpr h2]
          exact ih k k0 v h

/-- Dict assignment: the key set gains exactly the assigned key. -/
theorem mem_dictKeys_setKey : ∀ (d : List (String × String)) (k k0 v : String),
    (k0 ∈ dictKeys (setKey d k v)) ↔ (k0 = k ∨ k0 ∈ dictKeys d) := by
  intro d
  induction d with
  | nil => intro k k0 v; simp [setKey, dictKeys]
  | cons kv rest ih =>
      intro k k0 v
      obtain ⟨k1, v1⟩ := kv
      rw [setKey]
      by_cases h : k1 = k
      · rw [if_pos h]
        subst h
        simp [dictKeys]
      · rw [if_neg h]
        simp only [dictKeys, List.map_cons, List.mem_cons] at ih ⊢
        rw [ih]
        tauto

/-- The {**a, **b} merge contains exactly the keys of a and b. -/
theorem mem_dictKeys_dictUpdate : ∀ (b a : List (String × String)) (k : String),
    (k ∈ dictKeys (dictUpdate a b)) ↔ (k ∈ dictKeys a ∨ k ∈ dictKeys b) := by
  intro b
  induction b with
  | nil => intro a k; simp [dictUpdate, dictKeys]
  | cons kv bs ih =>
      intro a k
      obtain ⟨kb, vb⟩ := kv
      have hstep : dictUpdate a ((kb, vb) :: bs) = dictUpdate (setKey a kb vb) bs := rfl
      rw [hstep, ih, mem_dictKeys_setKey]
      simp only [dictKeys, List.map_cons, List.mem_cons]
      tauto

/-- Keys absent from b keep their a-side lookup through {**a, **b}. -/
theorem lookup_dictUpdate_left : ∀ (b a : List (String × String)) (k : String),
    k ∉ dictKeys b → (dictUpdate a b).lookup k = a.lookup k := by
  intro b
  induction b with
  | nil => intro a k _; rfl
  | cons kv bs ih =>
      intro a k hk
      obtain ⟨kb, vb⟩ := kv
      simp only [dictKeys, List.map_cons, List.mem_cons] at hk
      push_neg at hk
      have hstep : dictUpdate a ((kb, vb) :: bs) = dictUpdate (setKey a kb vb) bs := rfl
      rw [hstep, ih (setKey a kb vb) k (by simpa [dictKeys] using hk.2)]
      exact lookup_setKey_ne a kb k vb hk.1

/-- Keys present in b take b's value through {**a, **b} (b's keys are those
of a Python dict, hence duplicate-free). -/
theorem lookup_dictUpdate_right : ∀ (b a : List (String × String)) (k : String),
    (dictKeys b).Nodup → k ∈ dictKeys b →
    (dictUpdate a b).lookup k = b.lookup k := by
  intro b
  induction b with
  | nil => intro a k _ hk; simp [dictKeys] at hk
  | cons kv bs ih =>
      intro a k hnd hk
      obtain ⟨kb, vb⟩ := kv
      simp only [dictKeys, List.map_cons, List.nodup_cons] at hnd
      have hstep : dictUpdate a ((kb, vb) :: bs) = dictUpdate (setKey a kb vb) bs := rfl
      by_cases hmem : k ∈ dictKeys bs
      · have hne : k ≠ kb := by
          intro he
          subst he
          exact hnd.1 (by simpa [dictKeys] using hmem)
        rw [hstep, ih (setKey a kb vb) k hnd.2 hmem]
        rw [List.lookup]
        have : (k == kb) = false := by simp [hne]
        rw [this]
      · have hkb : k = kb := by
          simp only [dictKeys, List.map_cons, List.mem_cons] at hk
          rcases hk with h | h
          · exact h
          · exact absurd h hmem
        subst hkb
        rw [hstep, lookup_dictUpdate_left bs (setKey a k vb) k
          (by simpa [dictKeys] using hmem)]
        rw [lookup_setKey_self]
        rw [List.lookup]
        simp

/-- C5 (counterexample): "each list category" fails for unlabeled.  Merging
two stores whose unlabeled lists are ["u"] and ["v"] yields a dict with no
unlabeled key at all (none), not the deduplicated sorted union ["u", "v"]. -/
theorem merge_unlabeled_not_union :
    (merge_summaries ⟨none, none, none, none, none, none, some ["u"]⟩
        ⟨none, none, none, none, none, none, some ["v"]⟩).unlabeled
      ≠ some (sortedSetUnion
          ((⟨none, none, none, none, none, none, some ["u"]⟩ : SummaryDict).unlabeled.getD [])
          ((⟨none, none, none, none, none, none, some ["v"]⟩ : SummaryDict).unlabeled.getD []))
    := by decide

/-- C5 (amended): merge_summaries assigns to each of the five list
categories core_facts, user_preferences, decisions_made, constraints and
open_questions the deduplicated union of that category in A and B sorted
lexicographically (by code point); the unlabeled category is not carried
over (see merge_unlabeled_not_union).  The merged entities mapping contains
every entity key of A or B, with B's description overwriting A's on common
keys; consequently slice(merge(A, B), "large") contains every entity key
present in either A or B. -/
theorem merge_summaries_spec (A B : SummaryDict)
    (hb : (dictKeys (B.entities.getD [])).Nodup) :
    (∀ x, x ∈ (merge_summaries A B).core_facts.getD []
        ↔ x ∈ A.core_facts.getD [] ∨ x ∈ B.core_facts.getD [])
    ∧ ((merge_summaries A B).core_facts.getD []).Nodup
    ∧ ((merge_summaries A B).core_facts.getD []).Sorted (fun x y => strLe x y = true)
    ∧ (∀ x, x ∈ (merge_summaries A B).user_preferences.getD []
        ↔ x ∈ A.user_preferences.getD [] ∨ x ∈ B.user_preferences.getD [])
    ∧ ((merge_summaries A B).user_preferences.getD []).Nodup
    ∧ ((merge_summaries A B).user_preferences.getD []).Sorted (fun x y => strLe x y = true)
    ∧ (∀ x, x ∈ (merge_summaries A B).decisions_made.getD []
        ↔ x ∈ A.decisions_made.getD [] ∨ x ∈ B.decisions_made.getD [])
    ∧ ((merge_summaries A B).decisions_made.getD []).Nodup
    ∧ ((merge_summaries A B).decisions_made.getD []).Sorted (fun x y => strLe x y = true)
    ∧ (∀ x, x ∈ (merge_summaries A B).constraints.getD []
        ↔ x ∈ A.constraints.getD [] ∨ x ∈ B.constraints.getD [])
    ∧ ((merge_summaries A B).constraints.getD []).Nodup
    ∧ ((merge_summaries A B).constraints.getD []).Sorted (fun x y => strLe x y = true)
    ∧ (∀ x, x ∈ (merge_summaries A B).open_questions.getD []
        ↔ x ∈ A.open_questions.getD [] ∨ x ∈ B.open_questions.getD [])
    ∧ ((merge_summaries A B).open_questions.getD []).Nodup
    ∧ ((merge_summaries A B).open_questions.getD []).Sorted (fun x y => strLe x y = true)
    ∧ (∀ k, k ∈ dictKeys ((merge_summaries A B).entities.getD [])
        ↔ k ∈ dictKeys (A.entities.getD []) ∨ k ∈ dictKeys (B.entities.getD []))
    ∧ (∀ k, k ∈ dictKeys (B.entities.getD []) →
        ((merge_summaries A B).entities.getD []).lookup k
          = (B.entities.getD []).lookup k)
    ∧ (∀ k, k ∉ dictKeys (B.entities.getD []) →
        ((merge_summaries A B).entities.getD []).lookup k
          = (A.entities.getD []).lookup k)
    ∧ (∀ k, k ∈ dictKeys
          ((slice_summary (merge_summaries A B) "large").entities.getD [])
        ↔ k ∈ dictKeys (A.entities.getD []) ∨ k ∈ dictKeys (B.entities.getD [])) := by
  obtain ⟨m1, n1, s1⟩ := sortedSetUnion_spec (A.core_facts.getD []) (B.core_facts.getD [])
  obtain ⟨m2, n2, s2⟩ := sortedSetUnion_spec (A.user_preferences.getD [])
    (B.user_preferences.getD [])
  obtain ⟨m3, n3, s3⟩ := sortedSetUnion_spec (A.decisions_made.getD [])
    (B.decisions_made.getD [])
  obtain ⟨m4, n4, s4⟩ := sortedSetUnion_spec (A.constraints.getD []) (B.constraints.getD [])
  obtain ⟨m5, n5, s5⟩ := sortedSetUnion_spec (A.open_questions.getD [])
    (B.open_questions.getD [])
  refine ⟨m1, n1, s1, m2, n2, s2, m3, n3, s3, m4, n4, s4, m5, n5, s5, ?_, ?_, ?_, ?_⟩
  · intro k
    exact mem_dictKeys_dictUpdate (B.entities.getD []) (A.entities.getD []) k
  · intro k hk
    exact lookup_dictUpdate_right (B.entities.getD []) (A.entities.getD []) k hb hk
  · intro k hk
    exact lookup_dictUpdate_left (B.entities.getD []) (A.entities.getD []) k hk
  · intro k
    exact mem_dictKeys_dictUpdate (B.entities.getD []) (A.entities.getD []) k

/-- Witness for merge_summaries_spec at two concrete overlapping stores. -/
theorem merge_summaries_spec_witness :
    (∀ x, x ∈ (merge_summaries ⟨some ["b", "a"], some ["p"], some [], some ["c"], some ["q1", "q2"], some [("k1", "v1"), ("k2", "v2")], none⟩
        ⟨some ["a", "c"], none, some ["d"], some [], some ["q2"], some [("k2", "w2"), ("k3", "v3")], none⟩).core_facts.getD []
        ↔ x ∈ (⟨some ["b", "a"], some ["p"], some [], some ["c"], some ["q1", "q2"], some [("k1", "v1"), ("k2", "v2")], none⟩ : SummaryDict).core_facts.getD []
          ∨ x ∈ (⟨some ["a", "c"], none, some ["d"], some [], some ["q2"], some [("k2", "w2"), ("k3", "v3")], none⟩ : SummaryDict).core_facts.getD [])
    ∧ ((merge_summaries ⟨some ["b", "a"], some ["p"], some [], some ["c"], some ["q1", "q2"], some [("k1", "v1"), ("k2", "v2")], none⟩
        ⟨some ["a", "c"], none, some ["d"], some [], some ["q2"], some [("k2", "w2"), ("k3", "v3")], none⟩).core_facts.getD []).Nodup
    ∧ ((merge_summaries ⟨some ["b", "a"], some ["p"], some [], some ["c"], some ["q1", "q2"], some [("k1", "v1"), ("k2", "v2")], none⟩
        ⟨some ["a", "c"], none, some ["d"], some [], some ["q2"], some [("k2", "w2"), ("k3", "v3")], none⟩).core_facts.getD []).Sorted (fun x y => strLe x y = true)
    ∧ (∀ x, x ∈ (merge_summaries ⟨some ["b", "a"], some ["p"], some [], some ["c"], some ["q1", "q2"], some [("k1", "v1"), ("k2", "v2")], none⟩
        ⟨some ["a", "c"], none, some ["d"], some [], some ["q2"], some [("k2", "w2"), ("k3", "v3")], none⟩).user_preferences.getD []
        ↔ x ∈ (⟨some ["b", "a"], some ["p"], some [], some ["c"], some ["q1", "q2"], some [("k1", "v1"), ("k2", "v2")], none⟩ : SummaryDict).user_preferences.getD []
          ∨ x ∈ (⟨some ["a", "c"], none, some ["d"], some [], some ["q2"], some [("k2", "w2"), ("k3", "v3")], none⟩ : SummaryDict).user_preferences.getD [])
    ∧ ((merge_summaries ⟨some ["b", "a"], some ["p"], some [], some ["c"], some ["q1", "q2"], some [("k1", "v1"), ("k2", "v2")], none⟩
        ⟨some ["a", "c"], none, some ["d"], some [], some ["q2"], some [("k2", "w2"), ("k3", "v3")], none⟩).user_preferences.getD []).Nodup
    ∧ ((merge_summaries ⟨some ["b", "a"], some ["p"], some [], some ["c"], some ["q1", "q2"], some [("k1", "v1"), ("k2", "v2")], none⟩
        ⟨some ["a", "c"], none, some ["d"], some [], some ["q2"], some [("k2", "w2"), ("k3", "v3")], none⟩).user_preferences.getD []).Sorted (fun x y => strLe x y = true)
    ∧ (∀ x, x ∈ (merge_summaries ⟨some ["b", "a"], some ["p"], some [], some ["c"], some ["q1", "q2"], some [("k1", "v1"), ("k2", "v2")], none⟩
        ⟨some ["a", "c"], none, some ["d"], some [], some ["q2"], some [("k2", "w2"), ("k3", "v3")], none⟩).decisions_made.getD []
        ↔ x ∈ (⟨some ["b", "a"], some ["p"], some [], some ["c"], some ["q1", "q2"], some [("k1", "v1"), ("k2", "v2")], none⟩ : SummaryDict).decisions_made.getD []
          ∨ x ∈ (⟨some ["a", "c"], none, some ["d"], some [], some ["q2"], some [("k2", "w2"), ("k3", "v3")], none⟩ : SummaryDict).decisions_made.getD [])
    ∧ ((merge_summaries ⟨some ["b", "a"], some ["p"], some [], some ["c"], some ["q1", "q2"], some [("k1", "v1"), ("k2", "v2")], none⟩
        ⟨some ["a", "c"], none, some ["d"], some [], some ["q2"], some [("k2", "w2"), ("k3", "v3")], none⟩).decisions_made.getD []).Nodup
    ∧ ((merge_summaries ⟨some ["b", "a"], some ["p"], some [], some ["c"], some ["q1", "q2"], some [("k1", "v1"), ("k2", "v2")], none⟩
        ⟨some ["a", "c"], none, some ["d"], some [], some ["q2"], some [("k2", "w2"), ("k3", "v3")], none⟩).decisions_made.getD []).Sorted (fun x y => strLe x y = true)
    ∧ (∀ x, x ∈ (merge_summaries ⟨some ["b", "a"], some ["p"], some [], some ["c"], some ["q1", "q2"], some [("k1", "v1"), ("k2", "v2")], none⟩
        ⟨some ["a", "c"], none, some ["d"], some [], some ["q2"], some [("k2", "w2"), ("k3", "v3")], none⟩).constraints.getD []
        ↔ x ∈ (⟨some ["b", "a"], some ["p"], some [], some ["c"], some ["q1", "q2"], some [("k1", "v1"), ("k2", "v2")], none⟩ : SummaryDict).constraints.getD []
          ∨ x ∈ (⟨some ["a", "c"], none, some ["d"], some [], some ["q2"], some [("k2", "w2"), ("k3", "v3")], none⟩ : SummaryDict).constraints.getD [])
    ∧ ((merge_summaries ⟨some ["b", "a"], some ["p"], some [], some ["c"], some ["q1", "q2"], some [("k1", "v1"), ("k2", "v2")], none⟩
        ⟨some ["a", "c"], none, some ["d"], some [], some ["q2"], some [("k2", "w2"), ("k3", "v3")], none⟩).constraints.getD []).Nodup
    ∧ ((merge_summaries ⟨some ["b", "a"], some ["p"], some [], some ["c"], some ["q1", "q2"], some [("k1", "v1"), ("k2", "v2")], none⟩
        ⟨some ["a", "c"], none, some ["d"], some [], some ["q2"], some [("k2", "w2"), ("k3", "v3")], none⟩).constraints.getD []).Sorted (fun x y => strLe x y = true)
    ∧ (∀ x, x ∈ (merge_summaries ⟨some ["b", "a"], some ["p"], some [], some ["c"], some ["q1", "q2"], some [("k1", "v1"), ("k2", "v2")], none⟩
        ⟨some ["a", "c"], none, some ["d"], some [], some ["q2"], some [("k2", "w2"), ("k3", "v3")], none⟩).open_questions.getD []
        ↔ x ∈ (⟨some ["b", "a"], some ["p"], some [], some ["c"], some ["q1", "q2"], some [("k1", "v1"), ("k2", "v2")], none⟩ : SummaryDict).open_questions.getD []
          ∨ x ∈ (⟨some ["a", "c"], none, some ["d"], some [], some ["q2"], some [("k2", "w2"), ("k3", "v3")], none⟩ : SummaryDict).open_questions.getD [])
    ∧ ((merge_summaries ⟨some ["b", "a"], some ["p"], some [], some ["c"], some ["q1", "q2"], some [("k1", "v1"), ("k2", "v2")], none⟩
        ⟨some ["a", "c"], none, some ["d"], some [], some ["q2"], some [("k2", "w2"), ("k3", "v3")], none⟩).open_questions.getD []).Nodup
    ∧ ((merge_summaries ⟨some ["b", "a"], some ["p"], some [], some ["c"], some ["q1", "q2"], some [("k1", "v1"), ("k2", "v2")], none⟩
        ⟨some ["a", "c"], none, some ["d"], some [], some ["q2"], some [("k2", "w2"), ("k3", "v3")], none⟩).open_questions.getD []).Sorted (fun x y => strLe x y = true)
    ∧ (∀ k, k ∈ dictKeys ((merge_summaries ⟨some ["b", "a"], some ["p"], some [], some ["c"], some ["q1", "q2"], some [("k1", "v1"), ("k2", "v2")], none⟩
        ⟨some ["a", "c"], none, some ["d"], some [], some ["q2"], some [("k2", "w2"), ("k3", "v3")], none⟩).entities.getD [])
        ↔ k ∈ dictKeys ((⟨some ["b", "a"], some ["p"], some [], some ["c"], some ["q1", "q2"], some [("k1", "v1"), ("k2", "v2")], none⟩ : SummaryDict).entities.getD []) ∨ k ∈ dictKeys ((⟨some ["a", "c"], none, some ["d"], some [], some ["q2"], some [("k2", "w2"), ("k3", "v3")], none⟩ : SummaryDict).entities.getD []))
    ∧ (∀ k, k ∈ dictKeys ((⟨some ["a", "c"], none, some ["d"], some [], some ["q2"], some [("k2", "w2"), ("k3", "v3")], none⟩ : SummaryDict).entities.getD []) →
        ((merge_summaries ⟨some ["b", "a"], some ["p"], some [], some ["c"], some ["q1", "q2"], some [("k1", "v1"), ("k2", "v2")], none⟩
        ⟨some ["a", "c"], none, some ["d"], some [], some ["q2"], some [("k2", "w2"), ("k3", "v3")], none⟩).entities.getD []).lookup k = ((⟨some ["a", "c"], none, some ["d"], some [], some ["q2"], some [("k2", "w2"), ("k3", "v3")], none⟩ : SummaryDict).entities.getD []).lookup k)
    ∧ (∀ k, k ∉ dictKeys ((⟨some ["a", "c"], none, some ["d"], some [], some ["q2"], some [("k2", "w2"), ("k3", "v3")], none⟩ : SummaryDict).entities.getD []) →
        ((merge_summaries ⟨some ["b", "a"], some ["p"], some [], some ["c"], some ["q1", "q2"], some [("k1", "v1"), ("k2", "v2")], none⟩
        ⟨some ["a", "c"], none, some ["d"], some [], some ["q2"], some [("k2", "w2"), ("k3", "v3")], none⟩).entities.getD []).lookup k = ((⟨some ["b", "a"], some ["p"], some [], some ["c"], some ["q1", "q2"], some [("k1", "v1"), ("k2", "v2")], none⟩ : SummaryDict).entities.getD []).lookup k)
    ∧ (∀ k, k ∈ dictKeys
          ((slice_summary (merge_summaries ⟨some ["b", "a"], some ["p"], some [], some ["c"], some ["q1", "q2"], some [("k1", "v1"), ("k2", "v2")], none⟩
        ⟨some ["a", "c"], none, some ["d"], some [], some ["q2"], some [("k2", "w2"), ("k3", "v3")], none⟩) "large").entities.getD [])
        ↔ k ∈ dictKeys ((⟨some ["b", "a"], some ["p"], some [], some ["c"], some ["q1", "q2"], some [("k1", "v1"), ("k2", "v2")], none⟩ : SummaryDict).entities.getD []) ∨ k ∈ dictKeys ((⟨some ["a", "c"], none, some ["d"], some [], some ["q2"], some [("k2", "w2"), ("k3", "v3")], none⟩ : SummaryDict).entities.getD [])) :=
  merge_summaries_spec
    ⟨some ["b", "a"], some ["p"], some [], some ["c"], some ["q1", "q2"], some [("k1", "v1"), ("k2", "v2")], none⟩
    ⟨some ["a", "c"], none, some ["d"], some [], some ["q2"], some [("k2", "w2"), ("k3", "v3")], none⟩
    (by decide)

/-- C4: summarization is best-effort.  When the model's text output fails to
parse as JSON, summarize_conversation returns the empty summary (all seven
categories present and empty) instead of raising; and the summarization
trigger never propagates an error to the enclosing request: for every
completion outcome it returns normally, and on a model-call failure the
stored summary is left unchanged. -/
theorem summarization_best_effort
    (parse : String → Option (List (String × JVal)))
    (messages : List SumMessage) (prev stored : Option (List (String × JVal)))
    (response_text err : String)
    (hp : parse response_text = none) :
    summarize_conversation parse (LLMOutcome.success response_text) messages prev
      = Except.ok empty_summary_obj
    ∧ hasSevenEmptyCategories empty_summary_obj = true
    ∧ (∀ llm : LLMOutcome, ∃ r,
        trigger_summarization parse llm messages stored = Except.ok r)
    ∧ trigger_summarization parse (LLMOutcome.failure err) messages stored
        = Except.ok stored := by
  refine ⟨?_, by decide, ?_, ?_⟩
  · by_cases hm : messages = []
    · simp [summarize_conversation, hm]
    · simp [summarize_conversation, hm, hp]
  · intro llm
    by_cases hm : messages = []
    · exact ⟨stored, by simp [trigger_summarization, hm]⟩
    · cases hs : summarize_conversation parse llm messages stored with
      | ok sd => exact ⟨some sd, by simp [trigger_summarization, hm, hs]⟩
      | error e => exact ⟨stored, by simp [trigger_summarization, hm, hs]⟩
  · by_cases hm : messages = []
    · simp [trigger_summarization, hm]
    · simp [trigger_summarization, summarize_conversation, hm]

/-- Witness for summarization_best_effort: a parser that rejects every
string, one message, no previous or stored summary. -/
theorem summarization_best_effort_witness :
    summarize_conversation (fun _ => none) (LLMOutcome.success "not json")
        [⟨"alice", "user", "hi"⟩] none
      = Except.ok empty_summary_obj
    ∧ hasSevenEmptyCategories empty_summary_obj = true
    ∧ (∀ llm : LLMOutcome, ∃ r,
        trigger_summarization (fun _ => none) llm [⟨"alice", "user", "hi"⟩] none
          = Except.ok r)
    ∧ trigger_summarization (fun _ => none) (LLMOutcome.failure "boom")
        [⟨"alice", "user", "hi"⟩] none
        = Except.ok none :=
  summarization_best_effort (fun _ => none) [⟨"alice", "user", "hi"⟩] none none
    "not json" "boom" (by rfl)
